import Mathlib

set_option maxRecDepth 2000

/-!
Shallow embedding of the creative aggregation and win-rate classification
engine of the marketing-kpis-dashboard repository.

Sources embedded:
  * `src/app.py` — `extract_base_creative_name`, `aggregate_by_creative`,
    `calculate_monthly_stats`;
  * `src/src/data_processor.py` — `apply_win_rules`,
    `calculate_overview_metrics`, `get_funnel_stage`, `get_format_name`,
    `calculate_breakdown`;
  * `src/config.py` — `WIN_RULES`, `OBJECTIVE_TO_FUNNEL`, `FORMAT_MAPPING`.

Modelling conventions:
  * pandas numeric cells are modelled as exact rationals (`ℚ`); the claims
    under study are about the arithmetic relations of the code, not about
    binary floating point representation error.
  * A pandas DataFrame is a list of records (rows in order).
  * `groupby(key)` with the default `sort=True` partitions the rows by key
    and emits one group per distinct key in ascending key order; within a
    group the original row order is kept (this is what makes the pandas
    aggregator `"first"` well defined).
  * Python's `round(x, n)` is modelled as exact decimal rounding
    (`round (x * 10^n) / 10^n`).  Python rounds the nearest binary float
    with ties to even; no tie and no float-representation boundary occurs
    at any value appearing in this development, so the models agree on
    everything proved here.
  * Python `None` / missing string data is modelled as the empty string
    where the code only tests truthiness.
-/

/-- One ad-level input row (the flat table produced upstream), with the
columns read by the functions embedded here.  `angle`, `creator` and
`launch_month` are the enrichment columns present on the frame that
`calculate_breakdown` receives. -/
structure Row where
  ad_id : String
  ad_name : String
  campaign_name : String
  adset_name : String
  creative_type : String
  account_id : String
  objective : String
  angle : String
  creator : String
  launch_month : String
  spend : ℚ
  impressions : ℚ
  clicks : ℚ
  purchases : ℚ
  purchase_value : ℚ
  roas : ℚ
deriving DecidableEq, Repr

/-- One aggregated creative produced by `aggregate_by_creative`
(src/app.py lines 391-428). -/
structure CreativeAgg where
  ad_name : String
  spend : ℚ
  impressions : ℚ
  clicks : ℚ
  purchases : ℚ
  purchase_value : ℚ
  campaign_name : String
  adset_name : String
  creative_type : String
  account_id : String
  roas : ℚ
  cpa : ℚ
deriving DecidableEq, Repr

/-- String order used for pandas' ascending group-key sort: lexicographic
comparison of the character sequences (Python `str` comparison is the same
pointwise code-point comparison).  Stated on the character lists so that
it evaluates by reduction. -/
def strLE (a b : String) : Prop := a.data ≤ b.data

/-- Relation `strLE` is the standard string order. -/
theorem strLE_iff (a b : String) : strLE a b ↔ a ≤ b :=
  Iff.symm String.le_iff_toList_le

instance : DecidableRel strLE :=
  fun a b => inferInstanceAs (Decidable (a.data ≤ b.data))

instance : IsTotal String strLE :=
  ⟨fun a b => (le_total a b).imp (strLE_iff a b).mpr (strLE_iff b a).mpr⟩

instance : IsTrans String strLE :=
  ⟨fun a b c h1 h2 => (strLE_iff a c).mpr
    (le_trans ((strLE_iff a b).mp h1) ((strLE_iff b c).mp h2))⟩

/-- The distinct `ad_name` keys of the frame, in ascending order —
the group keys of `df.groupby("ad_name")` (default `sort=True`). -/
def creativeKeys (df : List Row) : List String :=
  List.insertionSort strLE (df.map (·.ad_name)).dedup

/-- Python's `str.strip()`: drop leading and trailing whitespace, modelled
on the character sequence of the string. -/
def pyStrip (s : String) : String :=
  ⟨(((s.data.dropWhile Char.isWhitespace).reverse).dropWhile
      Char.isWhitespace).reverse⟩

/-- Source `extract_base_creative_name` (src/app.py lines 380-388): a falsy
(empty/absent) name maps to `"Unknown"`, otherwise the name is stripped of
surrounding whitespace.  There is no suffix stripping. -/
def extract_base_creative_name (name : String) : String :=
  if name = "" then "Unknown" else pyStrip name

/-- The aggregate row built for one group key `k` of
`df.groupby("ad_name").agg(...)`: the five volume columns are summed, the
categorical columns take the aggregator `"first"` (first row of the group
in original order), and `roas`/`cpa` are recomputed from the group sums
with the divide-by-zero guard (src/app.py lines 403-426). -/
def aggRow (df : List Row) (k : String) : CreativeAgg :=
  let grp := df.filter fun r => r.ad_name = k
  let spend := (grp.map (·.spend)).sum
  let purchases := (grp.map (·.purchases)).sum
  let purchase_value := (grp.map (·.purchase_value)).sum
  { ad_name := k
    spend := spend
    impressions := (grp.map (·.impressions)).sum
    clicks := (grp.map (·.clicks)).sum
    purchases := purchases
    purchase_value := purchase_value
    campaign_name := ((grp.head?).map (·.campaign_name)).getD ""
    adset_name := ((grp.head?).map (·.adset_name)).getD ""
    creative_type := ((grp.head?).map (·.creative_type)).getD ""
    account_id := ((grp.head?).map (·.account_id)).getD ""
    roas := if spend > 0 then purchase_value / spend else 0
    cpa := if purchases > 0 then spend / purchases else 0 }

/-- Source `aggregate_by_creative` (src/app.py lines 391-428): group the rows by
`ad_name` and aggregate each group.  An empty frame yields an empty frame
(the source's `if df.empty: return df` early exit coincides with the
general path, since there are no group keys). -/
def aggregate_by_creative (df : List Row) : List CreativeAgg :=
  (creativeKeys df).map (aggRow df)

/- ### Conservation lemmas -/

/-- Summing an indicator over a duplicate-free key list that contains the
key yields the indicated value. -/
theorem sum_map_ite_eq (a : String) (c : ℚ) :
    ∀ (keys : List String), keys.Nodup → a ∈ keys →
      (keys.map fun k => if a = k then c else 0).sum = c := by
  intro keys
  induction keys with
  | nil => intro _ h; cases h
  | cons k ks ih =>
      intro hnd hm
      have hnd' := List.nodup_cons.mp hnd
      rcases List.mem_cons.mp hm with h | h
      · subst h
        have hz : (ks.map fun k' => if a = k' then c else 0).sum = 0 := by
          apply List.sum_eq_zero
          intro x hx
          rcases List.mem_map.mp hx with ⟨k', hk', rfl⟩
          have : a ≠ k' := fun he => hnd'.1 (he ▸ hk')
          simp [this]
        simp [hz]
      · have hne : a ≠ k := fun he => hnd'.1 (he ▸ h)
        simp [hne, ih hnd'.2 h]

/-- Fiberwise summation: summing a column group-by-group over a
duplicate-free key list that covers every row's key equals summing the
column over all rows. -/
theorem sum_groups_eq_sum (key : Row → String) (f : Row → ℚ) :
    ∀ (rows : List Row) (keys : List String), keys.Nodup →
      (∀ r ∈ rows, key r ∈ keys) →
      (keys.map fun k => ((rows.filter fun r => key r = k).map f).sum).sum
        = (rows.map f).sum := by
  intro rows
  induction rows with
  | nil => intro keys _ _; simp
  | cons r rs ih =>
      intro keys hnd hcov
      have hstep : ∀ k ∈ keys,
          (((r :: rs).filter fun x => key x = k).map f).sum
            = (if key r = k then f r else 0)
              + ((rs.filter fun x => key x = k).map f).sum := by
        intro k _
        by_cases h : key r = k
        · simp [List.filter_cons, h]
        · simp [List.filter_cons, h]
      calc (keys.map fun k => (((r :: rs).filter fun x => key x = k).map f).sum).sum
          = (keys.map fun k => (if key r = k then f r else 0)
              + ((rs.filter fun x => key x = k).map f).sum).sum := by
            exact congrArg List.sum (List.map_congr_left hstep)
        _ = (keys.map fun k => if key r = k then f r else 0).sum
              + (keys.map fun k => ((rs.filter fun x => key x = k).map f).sum).sum := by
            rw [← List.sum_map_add]
        _ = f r + (rs.map f).sum := by
            rw [sum_map_ite_eq (key r) (f r) keys hnd (hcov r (List.mem_cons_self r rs)),
              ih keys hnd (fun x hx => hcov x (List.mem_cons_of_mem r hx))]
        _ = ((r :: rs).map f).sum := by simp

theorem creativeKeys_nodup (df : List Row) : (creativeKeys df).Nodup := by
  rw [creativeKeys]
  exact ((List.perm_insertionSort strLE _).symm).nodup (List.nodup_dedup _)

theorem mem_creativeKeys (df : List Row) (r : Row) (h : r ∈ df) :
    r.ad_name ∈ creativeKeys df := by
  rw [creativeKeys]
  exact ((List.perm_insertionSort strLE _).mem_iff).mpr
    (List.mem_dedup.mpr (List.mem_map_of_mem (·.ad_name) h))

/-- Generic conservation: an aggregate column that is the per-group sum of
an input column has the same total as that input column. -/
theorem aggregate_sum_col (df : List Row) (g : CreativeAgg → ℚ) (f : Row → ℚ)
    (hcol : ∀ k, g (aggRow df k) = ((df.filter fun r => r.ad_name = k).map f).sum) :
    ((aggregate_by_creative df).map g).sum = (df.map f).sum := by
  rw [aggregate_by_creative, List.map_map]
  have hfun : (g ∘ aggRow df)
      = fun k => ((df.filter fun r => r.ad_name = k).map f).sum := funext hcol
  rw [hfun]
  exact sum_groups_eq_sum (fun r => r.ad_name) f df (creativeKeys df)
    (creativeKeys_nodup df) (fun r hr => mem_creativeKeys df r hr)

/-- C1: creative aggregation conserves the sums of the five numeric columns
spend, impressions, clicks, purchases and purchase_value: summing any of
them over the aggregated creatives equals summing it over the input rows. -/
theorem C1_aggregate_conservation (df : List Row) :
    ((aggregate_by_creative df).map (·.spend)).sum = (df.map (·.spend)).sum
    ∧ ((aggregate_by_creative df).map (·.impressions)).sum
        = (df.map (·.impressions)).sum
    ∧ ((aggregate_by_creative df).map (·.clicks)).sum = (df.map (·.clicks)).sum
    ∧ ((aggregate_by_creative df).map (·.purchases)).sum
        = (df.map (·.purchases)).sum
    ∧ ((aggregate_by_creative df).map (·.purchase_value)).sum
        = (df.map (·.purchase_value)).sum :=
  ⟨aggregate_sum_col df _ _ fun _ => rfl,
   aggregate_sum_col df _ _ fun _ => rfl,
   aggregate_sum_col df _ _ fun _ => rfl,
   aggregate_sum_col df _ _ fun _ => rfl,
   aggregate_sum_col df _ _ fun _ => rfl⟩

/- ### Rounding -/

/-- Python's `round(x, 1)`, modelled as exact decimal rounding to one
decimal place (no tie or binary-float boundary arises at any value in this
development, where the two semantics could differ). -/
def round1 (x : ℚ) : ℚ := (round (x * 10) : ℤ) / 10

/-- Python's `round(x, 2)`, modelled as exact decimal rounding to two
decimal places (same caveat as `round1`). -/
def round2 (x : ℚ) : ℚ := (round (x * 100) : ℤ) / 100

/- ### Win classifier (src/src/data_processor.py, src/config.py) -/

/-- Constant `config.WIN_RULES["min_roas"]` (src/config.py line 5). -/
def WIN_RULES_min_roas : ℚ := 2

/-- Constant `config.WIN_RULES["min_spend"]` (src/config.py line 6). -/
def WIN_RULES_min_spend : ℚ := 100

/-- A row of the classified frame: the input row plus the two boolean
columns added by `apply_win_rules`. -/
structure CRow where
  row : Row
  is_qualified : Bool
  is_winner : Bool
deriving DecidableEq, Repr

/-- Source `apply_win_rules` (src/src/data_processor.py lines 9-34): thresholds
default to `None` and are replaced by `config.WIN_RULES` when absent;
`is_qualified = spend >= min_spend`, `is_winner = is_qualified and
roas >= min_roas`. -/
def apply_win_rules (df : List Row) (min_roas min_spend : Option ℚ) :
    List CRow :=
  let mr := min_roas.getD WIN_RULES_min_roas
  let ms := min_spend.getD WIN_RULES_min_spend
  df.map fun r =>
    let q := decide (r.spend ≥ ms)
    { row := r, is_qualified := q, is_winner := q && decide (r.roas ≥ mr) }

/-- The overview metrics dictionary returned by
`calculate_overview_metrics`. -/
structure OverviewMetrics where
  total_ads : ℕ
  total_winners : ℕ
  win_rate : ℚ
  blended_roas : ℚ
  total_spend : ℚ
  total_revenue : ℚ
  qualified_ads : ℕ
deriving DecidableEq, Repr

/-- Source `calculate_overview_metrics` (src/src/data_processor.py lines 37-64):
win rate is winners over qualified ads (0 when none qualify), blended ROAS
is total revenue over total spend (0 when spend is 0); the reported
win rate is rounded to 1 decimal and the currency totals and blended ROAS
to 2 decimals. -/
def calculate_overview_metrics (df : List CRow) : OverviewMetrics :=
  let total_ads := df.length
  let qualified_ads := (df.filter (·.is_qualified)).length
  let total_winners := (df.filter (·.is_winner)).length
  let win_rate : ℚ :=
    if qualified_ads > 0 then (total_winners : ℚ) / qualified_ads * 100 else 0
  let total_spend := (df.map (·.row.spend)).sum
  let total_revenue := (df.map (·.row.purchase_value)).sum
  let blended_roas : ℚ :=
    if total_spend > 0 then total_revenue / total_spend else 0
  { total_ads := total_ads
    total_winners := total_winners
    win_rate := round1 win_rate
    blended_roas := round2 blended_roas
    total_spend := round2 total_spend
    total_revenue := round2 total_revenue
    qualified_ads := qualified_ads }

/- ### Attribute extraction (src/src/data_processor.py, src/config.py) -/

/-- Table `config.OBJECTIVE_TO_FUNNEL` (src/config.py lines 26-44). -/
def OBJECTIVE_TO_FUNNEL : List (String × String) :=
  [("OUTCOME_AWARENESS", "TOF"), ("OUTCOME_ENGAGEMENT", "TOF"),
   ("OUTCOME_LEADS", "MOF"), ("OUTCOME_TRAFFIC", "MOF"),
   ("OUTCOME_APP_PROMOTION", "MOF"), ("OUTCOME_SALES", "BOF"),
   ("CONVERSIONS", "BOF"), ("LINK_CLICKS", "MOF"), ("REACH", "TOF"),
   ("BRAND_AWARENESS", "TOF"), ("VIDEO_VIEWS", "TOF"),
   ("POST_ENGAGEMENT", "TOF"), ("PAGE_LIKES", "TOF"),
   ("LEAD_GENERATION", "MOF"), ("MESSAGES", "MOF"),
   ("CATALOG_SALES", "BOF"), ("STORE_TRAFFIC", "BOF")]

/-- Table `config.FORMAT_MAPPING` (src/config.py lines 47-53). -/
def FORMAT_MAPPING : List (String × String) :=
  [("VIDEO", "Video"), ("IMAGE", "Static"), ("CAROUSEL", "Carousel"),
   ("COLLECTION", "Collection"), ("SLIDESHOW", "Slideshow")]

/-- Source `get_funnel_stage` (src/src/data_processor.py lines 67-69):
`OBJECTIVE_TO_FUNNEL.get(objective, "Unknown")`. -/
def get_funnel_stage (objective : String) : String :=
  (OBJECTIVE_TO_FUNNEL.lookup objective).getD "Unknown"

/-- Source `get_format_name` (src/src/data_processor.py lines 72-74):
`FORMAT_MAPPING.get(creative_type, creative_type or "Unknown")` — a falsy
(empty/absent) creative_type falls back to `"Unknown"`, an unmapped truthy
one falls back to itself. -/
def get_format_name (creative_type : String) : String :=
  (FORMAT_MAPPING.lookup creative_type).getD
    (if creative_type = "" then "Unknown" else creative_type)

/- ### Breakdown engine (src/src/data_processor.py lines 106-153) -/

/-- The columns of the enriched, classified frame handed to
`calculate_breakdown` (raw input columns, the enrichment columns
`funnel_stage`/`format`/`launch_month` from `enrich_data`, the
`angle`/`creator` columns supplied upstream, and the two classification
columns from `apply_win_rules`). -/
def dfColumns : List String :=
  ["ad_id", "ad_name", "campaign_name", "adset_name", "creative_type",
   "account_id", "objective", "angle", "creator", "launch_month", "spend",
   "impressions", "clicks", "purchases", "purchase_value", "roas",
   "funnel_stage", "format", "is_qualified", "is_winner"]

/-- The cell of column `c` in classified row `r`, rendered as the grouping
key.  `funnel_stage` and `format` are the enrichment columns computed by
`enrich_data` from `objective` and `creative_type`.  Numeric and boolean
cells are rendered through `toString`, which is injective on normalised
`ℚ` and on `Bool`, so grouping by the rendered key groups exactly by the
cell value. -/
def colStr (r : CRow) (c : String) : String :=
  if c = "ad_id" then r.row.ad_id
  else if c = "ad_name" then r.row.ad_name
  else if c = "campaign_name" then r.row.campaign_name
  else if c = "adset_name" then r.row.adset_name
  else if c = "creative_type" then r.row.creative_type
  else if c = "account_id" then r.row.account_id
  else if c = "objective" then r.row.objective
  else if c = "angle" then r.row.angle
  else if c = "creator" then r.row.creator
  else if c = "launch_month" then r.row.launch_month
  else if c = "spend" then toString r.row.spend
  else if c = "impressions" then toString r.row.impressions
  else if c = "clicks" then toString r.row.clicks
  else if c = "purchases" then toString r.row.purchases
  else if c = "purchase_value" then toString r.row.purchase_value
  else if c = "roas" then toString r.row.roas
  else if c = "funnel_stage" then get_funnel_stage r.row.objective
  else if c = "format" then get_format_name r.row.creative_type
  else if c = "is_qualified" then toString r.is_qualified
  else if c = "is_winner" then toString r.is_winner
  else ""

/-- One output row of `calculate_breakdown` (the final column selection
`name, total_ads, winners, win_rate, spend, roas`; the intermediate
`qualified` column is dropped). -/
structure BreakdownRow where
  name : String
  total_ads : ℕ
  winners : ℕ
  win_rate : ℚ
  spend : ℚ
  roas : ℚ
deriving DecidableEq, Repr

/-- The descending-win-rate order used by
`result.sort_values("win_rate", ascending=False)`. -/
def bdLE (a b : BreakdownRow) : Prop := b.win_rate ≤ a.win_rate

instance : DecidableRel bdLE :=
  fun a b => inferInstanceAs (Decidable (b.win_rate ≤ a.win_rate))

instance : IsTotal BreakdownRow bdLE := ⟨fun a b => le_total b.win_rate a.win_rate⟩

instance : IsTrans BreakdownRow bdLE := ⟨fun _ _ _ h1 h2 => le_trans h2 h1⟩

/-- The distinct keys of column `c`, ascending — the group keys of
`df.groupby(group_by)` (default `sort=True`). -/
def breakdownKeys (df : List CRow) (c : String) : List String :=
  List.insertionSort strLE ((df.map (colStr · c)).dedup)

/-- The aggregated breakdown row for one group key: counts `ad_id`/winner/
qualified cardinalities, sums spend and revenue, and computes win rate
(winners over qualified, rounded to 1 decimal, 0 when none qualify) and
ROAS (revenue over spend, rounded to 2 decimals, 0 when spend is 0)
(src/src/data_processor.py lines 124-142). -/
def bdRow (df : List CRow) (c k : String) : BreakdownRow :=
  let grp := df.filter fun r => colStr r c = k
  let winners := (grp.filter (·.is_winner)).length
  let qualified := (grp.filter (·.is_qualified)).length
  let spend := (grp.map (·.row.spend)).sum
  let revenue := (grp.map (·.row.purchase_value)).sum
  { name := k
    total_ads := grp.length
    winners := winners
    win_rate :=
      if qualified > 0 then round1 ((winners : ℚ) / qualified * 100) else 0
    spend := spend
    roas := if spend > 0 then round2 (revenue / spend) else 0 }

/-- Source `calculate_breakdown` (src/src/data_processor.py lines 106-153): an
unknown grouping column returns an empty frame; otherwise the frame is
grouped by the column, aggregated per group, and sorted by win rate
descending.  (pandas' default `sort_values` kind is not stable; no claim
here depends on the order of equal win rates.) -/
def calculate_breakdown (df : List CRow) (group_by : String) :
    List BreakdownRow :=
  if group_by ∈ dfColumns then
    List.insertionSort bdLE ((breakdownKeys df group_by).map (bdRow df group_by))
  else []

/- ### Monthly stats (src/app.py lines 431-470) -/

/-- The dictionary returned by `calculate_monthly_stats`. -/
structure MonthlyStats where
  total_ads : ℕ
  unique_creatives : ℕ
  winners : ℕ
  win_rate : ℚ
  total_spend : ℚ
  avg_roas : ℚ
deriving DecidableEq, Repr

/-- Source `calculate_monthly_stats` (src/app.py lines 431-470): aggregates by
creative, counts winners as creatives with `spend >= min_spend` and
`roas >= min_roas`, and reports `win_rate = winners / unique_creatives *
100` — the denominator is every aggregated creative, not only the
qualified ones.  In the source the thresholds are keyword parameters
defaulting to `min_spend=1000`, `min_roas=2.0`; the embedding passes them
explicitly.  No rounding is applied here. -/
def calculate_monthly_stats (df : List Row) (min_spend min_roas : ℚ) :
    MonthlyStats :=
  if df.isEmpty then
    { total_ads := 0, unique_creatives := 0, winners := 0, win_rate := 0,
      total_spend := 0, avg_roas := 0 }
  else
    let creative_df := aggregate_by_creative df
    let unique_creatives := creative_df.length
    let winners := (creative_df.filter fun a =>
      decide (a.spend ≥ min_spend) && decide (a.roas ≥ min_roas)).length
    let ts := (creative_df.map (·.spend)).sum
    { total_ads := df.length
      unique_creatives := unique_creatives
      winners := winners
      win_rate :=
        if unique_creatives > 0 then (winners : ℚ) / unique_creatives * 100
        else 0
      total_spend := ts
      avg_roas :=
        if ts > 0 then (creative_df.map (·.purchase_value)).sum / ts else 0 }

/- ### Projection lemmas -/

theorem aggRow_roas (df : List Row) (k : String) :
    (aggRow df k).roas = if (aggRow df k).spend > 0
      then (aggRow df k).purchase_value / (aggRow df k).spend else 0 := rfl

theorem aggRow_cpa (df : List Row) (k : String) :
    (aggRow df k).cpa = if (aggRow df k).purchases > 0
      then (aggRow df k).spend / (aggRow df k).purchases else 0 := rfl

/- ### Concrete frames used as witnesses and counterexamples -/

/-- A concrete input row; only the fields read by the claims under test
vary, the rest are fixed placeholder strings and zero counters. -/
def mkRow (name : String) (spend value roas : ℚ)
    (objective creative_type : String) : Row :=
  { ad_id := name, ad_name := name, campaign_name := "camp",
    adset_name := "adset", creative_type := creative_type,
    account_id := "acct", objective := objective, angle := "", creator := "",
    launch_month := "", spend := spend, impressions := 0, clicks := 0,
    purchases := 0, purchase_value := value, roas := roas }

def rowAd1 : Row := mkRow "Ad_1" 500 1000 2 "OUTCOME_SALES" "VIDEO"

def rowAd2 : Row := mkRow "Ad_2" 500 1000 2 "OUTCOME_SALES" "VIDEO"

def rowC4 : Row := mkRow "Boundary" 1000 2000 2 "OUTCOME_SALES" "VIDEO"

/-- The classified row `apply_win_rules` produces for `rowC4` at
thresholds `min_spend = 1000`, `min_roas = 2`. -/
def cRowC4 : CRow := { row := rowC4, is_qualified := true, is_winner := true }

def rowC5 : Row := mkRow "X" 1000 2500 0 "OUTCOME_SALES" "VIDEO"

/-- The aggregate `aggregate_by_creative` produces for `[rowC5]`. -/
def aggC5 : CreativeAgg :=
  { ad_name := "X", spend := 1000, impressions := 0, clicks := 0,
    purchases := 0, purchase_value := 2500, campaign_name := "camp",
    adset_name := "adset", creative_type := "VIDEO", account_id := "acct",
    roas := 5/2, cpa := 0 }

/- ### C4 -/

/-- C4: with explicitly passed non-negative thresholds, every classified
row satisfies `is_qualified = (spend >= min_spend)` and
`is_winner = is_qualified and (roas >= min_roas)`, both boundaries
inclusive. -/
theorem C4_win_classifier (df : List Row) (min_spend min_roas : ℚ)
    (_hms : 0 ≤ min_spend) (_hmr : 0 ≤ min_roas) :
    ∀ c ∈ apply_win_rules df (some min_roas) (some min_spend),
      c.is_qualified = decide (c.row.spend ≥ min_spend)
      ∧ c.is_winner
          = (decide (c.row.spend ≥ min_spend) && decide (c.row.roas ≥ min_roas)) := by
  intro c hc
  simp only [apply_win_rules] at hc
  rcases List.mem_map.mp hc with ⟨r, _, rfl⟩
  exact ⟨rfl, rfl⟩

/-- C4 witness: the boundary scenario spend=1000, roas=2.0 at
min_spend=1000, min_roas=2.0 is classified qualified and winner. -/
theorem C4_win_classifier_witness :
    cRowC4 ∈ apply_win_rules [rowC4] (some 2) (some 1000)
    ∧ cRowC4.is_qualified = true ∧ cRowC4.is_winner = true
    ∧ cRowC4.is_qualified = decide (cRowC4.row.spend ≥ (1000 : ℚ))
    ∧ cRowC4.is_winner
        = (decide (cRowC4.row.spend ≥ (1000 : ℚ))
            && decide (cRowC4.row.roas ≥ (2 : ℚ))) := by
  refine ⟨by decide, rfl, rfl, ?_, ?_⟩
  · exact (C4_win_classifier [rowC4] 1000 2 (by norm_num) (by norm_num)
      cRowC4 (by decide)).1
  · exact (C4_win_classifier [rowC4] 1000 2 (by norm_num) (by norm_num)
      cRowC4 (by decide)).2

/- ### C5 -/

/-- C5: every aggregated creative has `roas = purchase_value / spend` when
`spend > 0` and `roas = 0` otherwise, and `cpa = spend / purchases` when
`purchases > 0` and `cpa = 0` otherwise; division by zero yields 0 rather
than raising. -/
theorem C5_ratio_guards (df : List Row) (a : CreativeAgg)
    (h : a ∈ aggregate_by_creative df) :
    (a.spend > 0 → a.roas = a.purchase_value / a.spend)
    ∧ (¬ a.spend > 0 → a.roas = 0)
    ∧ (a.purchases > 0 → a.cpa = a.spend / a.purchases)
    ∧ (¬ a.purchases > 0 → a.cpa = 0) := by
  simp only [aggregate_by_creative] at h
  rcases List.mem_map.mp h with ⟨k, _, rfl⟩
  refine ⟨fun hs => ?_, fun hs => ?_, fun hp => ?_, fun hp => ?_⟩
  · rw [aggRow_roas, if_pos hs]
  · rw [aggRow_roas, if_neg hs]
  · rw [aggRow_cpa, if_pos hp]
  · rw [aggRow_cpa, if_neg hp]

/-- Evaluation of the one-row aggregation used by the C5 witness. -/
theorem aggregate_rowC5_eval : aggregate_by_creative [rowC5] = [aggC5] := by
  simp only [aggregate_by_creative, creativeKeys, rowC5, mkRow, List.map,
    List.dedup_cons_of_not_mem, List.dedup_nil, List.insertionSort,
    List.orderedInsert, aggRow, List.filter, aggC5]
  norm_num [List.head?]

/-- C5 witness: the aggregate of a single row with spend=1000,
purchase_value=2500 is in the output, has roas = 2.5, and satisfies the
guard equations. -/
theorem C5_ratio_guards_witness :
    aggC5 ∈ aggregate_by_creative [rowC5]
    ∧ aggC5.roas = 5/2 ∧ aggC5.cpa = 0
    ∧ ((aggC5.spend > 0 → aggC5.roas = aggC5.purchase_value / aggC5.spend)
        ∧ (¬ aggC5.spend > 0 → aggC5.roas = 0)
        ∧ (aggC5.purchases > 0 → aggC5.cpa = aggC5.spend / aggC5.purchases)
        ∧ (¬ aggC5.purchases > 0 → aggC5.cpa = 0)) :=
  ⟨by rw [aggregate_rowC5_eval]; exact List.mem_singleton.mpr rfl, rfl, rfl,
   C5_ratio_guards [rowC5] aggC5
     (by rw [aggregate_rowC5_eval]; exact List.mem_singleton.mpr rfl)⟩

/- ### C2 -/

/-- Evaluation of the aggregation of the two-row "Ad_1"/"Ad_2" scenario:
the two names are distinct group keys, so two aggregates come out. -/
theorem aggregate_adPair_eval :
    ((aggregate_by_creative [rowAd1, rowAd2]).map
        fun a => (a.ad_name, a.spend, a.purchase_value, a.roas))
      = [("Ad_1", 500, 1000, 2), ("Ad_2", 500, 1000, 2)] := by
  simp only [aggregate_by_creative, creativeKeys, rowAd1, rowAd2, mkRow,
    List.map, List.dedup_cons_of_not_mem, List.dedup_nil, List.mem_singleton,
    List.insertionSort, List.orderedInsert, aggRow, List.filter]
  norm_num [strLE, List.head?]

/-- C2 counterexample: the code has no "strip-duplicates" normalizer — the
rows named "Ad_1" and "Ad_2" (each spend=500, purchase_value=1000)
aggregate to TWO creatives keyed by the raw names, not to one creative
"Ad" with spend=1000; and the name normalizer in the source keeps the
digit suffix. -/
theorem C2_counterexample :
    (aggregate_by_creative [rowAd1, rowAd2]).length = 2
    ∧ ((aggregate_by_creative [rowAd1, rowAd2]).map (·.ad_name))
        = ["Ad_1", "Ad_2"]
    ∧ extract_base_creative_name "Ad_1" = "Ad_1"
    ∧ "Ad_1" ≠ "Ad" := by
  have h := aggregate_adPair_eval
  refine ⟨?_, ?_, by decide, by decide⟩
  · have := congrArg List.length h
    simpa using this
  · have := congrArg (List.map Prod.fst) h
    simpa [← List.map_map] using this

/-- C2 amended: `extract_base_creative_name` only maps an empty name to
"Unknown" and strips surrounding whitespace — it performs no suffix
stripping — and `aggregate_by_creative` groups by the raw `ad_name`, so
the rows "Ad_1" and "Ad_2" (each spend=500, purchase_value=1000) produce
two creatives, each with spend=500, purchase_value=1000 and roas=2.0. -/
theorem C2_no_suffix_stripping :
    extract_base_creative_name "" = "Unknown"
    ∧ extract_base_creative_name "  Ad_1  " = "Ad_1"
    ∧ extract_base_creative_name "Ad_1" = "Ad_1"
    ∧ ((aggregate_by_creative [rowAd1, rowAd2]).map
        fun a => (a.ad_name, a.spend, a.purchase_value, a.roas))
      = [("Ad_1", 500, 1000, 2), ("Ad_2", 500, 1000, 2)] :=
  ⟨by decide, by decide, by decide, aggregate_adPair_eval⟩

/- ### Projection and population lemmas for the breakdown and monthly stats -/

theorem bdRow_name (df : List CRow) (c k : String) : (bdRow df c k).name = k := rfl

theorem bdRow_winners (df : List CRow) (c k : String) :
    (bdRow df c k).winners
      = ((df.filter fun r => colStr r c = k).filter (·.is_winner)).length := rfl

theorem bdRow_win_rate (df : List CRow) (c k : String) :
    (bdRow df c k).win_rate
      = if 0 < ((df.filter fun r => colStr r c = k).filter (·.is_qualified)).length
        then round1
          (((((df.filter fun r => colStr r c = k).filter (·.is_winner)).length) : ℚ)
            / ((((df.filter fun r => colStr r c = k).filter
                (·.is_qualified)).length) : ℚ) * 100)
        else 0 := rfl

/-- A nonempty frame aggregates to a nonempty creative list. -/
theorem aggregate_ne_nil (rows : List Row) (h : rows.isEmpty = false) :
    0 < (aggregate_by_creative rows).length := by
  cases rows with
  | nil => simp at h
  | cons r rs =>
      have hm : r.ad_name ∈ creativeKeys (r :: rs) :=
        mem_creativeKeys _ r (List.mem_cons_self r rs)
      have hne : creativeKeys (r :: rs) ≠ [] := by
        intro he; rw [he] at hm; cases hm
      rw [aggregate_by_creative, List.length_map]
      exact List.length_pos.mpr hne

/- ### C3 -/

def rowA3 : Row := mkRow "A" 1000 3000 0 "OUTCOME_SALES" "VIDEO"

def rowB3 : Row := mkRow "B" 10 0 0 "OUTCOME_SALES" "VIDEO"

def cW3 : CRow := ⟨mkRow "W" 1000 3000 3 "OUTCOME_SALES" "VIDEO", true, true⟩

def cLa3 : CRow := ⟨mkRow "L1" 500 100 (1/5) "OUTCOME_SALES" "VIDEO", true, false⟩

def cLb3 : CRow := ⟨mkRow "L2" 500 100 (1/5) "OUTCOME_SALES" "VIDEO", true, false⟩

def bdW3 : BreakdownRow := bdRow [cW3] "funnel_stage" "BOF"

/-- C3 counterexample: `calculate_monthly_stats` does NOT divide by the
qualified population.  At min_spend=1000 the two-creative frame has one
qualified creative and one winner, so the claim's formula gives 100, but
the code reports 50 (winners over ALL unique creatives).  Also the
overview win rate is rounded to one decimal: one winner out of three
qualified reports 33.3, not 100/3. -/
theorem C3_counterexample :
    (calculate_monthly_stats [rowA3, rowB3] 1000 2).win_rate = 50
    ∧ (calculate_monthly_stats [rowA3, rowB3] 1000 2).winners = 1
    ∧ ((aggregate_by_creative [rowA3, rowB3]).filter
        fun a => decide (a.spend ≥ (1000:ℚ))).length = 1
    ∧ (50 : ℚ) ≠ (1 : ℚ) / 1 * 100
    ∧ (calculate_overview_metrics [cW3, cLa3, cLb3]).win_rate = 333/10
    ∧ (333/10 : ℚ) ≠ (1 : ℚ) / 3 * 100 := by
  refine ⟨?_, ?_, ?_, by norm_num, ?_, by norm_num⟩
  · simp only [calculate_monthly_stats, aggregate_by_creative, creativeKeys,
      rowA3, rowB3, mkRow, List.map, List.dedup_cons_of_not_mem,
      List.dedup_nil, List.mem_singleton, List.insertionSort,
      List.orderedInsert, aggRow, List.filter, List.isEmpty]
    norm_num [strLE, List.head?]
  · simp only [calculate_monthly_stats, aggregate_by_creative, creativeKeys,
      rowA3, rowB3, mkRow, List.map, List.dedup_cons_of_not_mem,
      List.dedup_nil, List.mem_singleton, List.insertionSort,
      List.orderedInsert, aggRow, List.filter, List.isEmpty]
    norm_num [strLE, List.head?]
  · simp only [aggregate_by_creative, creativeKeys, rowA3, rowB3, mkRow,
      List.map, List.dedup_cons_of_not_mem, List.dedup_nil,
      List.mem_singleton, List.insertionSort, List.orderedInsert, aggRow,
      List.filter]
    norm_num [strLE, List.head?]
  · simp only [calculate_overview_metrics, cW3, cLa3, cLb3, mkRow, List.filter]
    norm_num [round1, round_eq]

/-- C3 amended: the overview metrics and per-group breakdowns divide
winners by the QUALIFIED population (rounded to 1 decimal), with 0 when no
entry qualifies; `calculate_monthly_stats` instead divides winners by ALL
aggregated unique creatives (unrounded), with 0 on an empty frame.  No
win-rate computation raises on an empty denominator. -/
theorem C3_win_rate_denominators (df : List CRow) (rows : List Row)
    (g : String) (b : BreakdownRow) (ms mr : ℚ)
    (hb : b ∈ calculate_breakdown df g) :
    ((df.filter (·.is_qualified)).length = 0
        → (calculate_overview_metrics df).win_rate = 0)
    ∧ (0 < (df.filter (·.is_qualified)).length
        → (calculate_overview_metrics df).win_rate
            = round1 (((df.filter (·.is_winner)).length : ℚ)
                / ((df.filter (·.is_qualified)).length : ℚ) * 100))
    ∧ (((df.filter fun r => colStr r g = b.name).filter
          (·.is_qualified)).length = 0
        → b.win_rate = 0)
    ∧ (0 < ((df.filter fun r => colStr r g = b.name).filter
          (·.is_qualified)).length
        → b.win_rate = round1 ((b.winners : ℚ)
            / ((((df.filter fun r => colStr r g = b.name).filter
                (·.is_qualified)).length) : ℚ) * 100))
    ∧ (rows.isEmpty = true → (calculate_monthly_stats rows ms mr).win_rate = 0)
    ∧ (rows.isEmpty = false
        → (calculate_monthly_stats rows ms mr).win_rate
            = ((calculate_monthly_stats rows ms mr).winners : ℚ)
                / ((calculate_monthly_stats rows ms mr).unique_creatives : ℚ)
                * 100) := by
  rw [calculate_breakdown] at hb
  by_cases hg : g ∈ dfColumns
  case neg => rw [if_neg hg] at hb; cases hb
  case pos =>
  rw [if_pos hg] at hb
  have hb2 := (List.perm_insertionSort bdLE _).mem_iff.mp hb
  rcases List.mem_map.mp hb2 with ⟨k, hk, rfl⟩
  rw [bdRow_name]
  refine ⟨fun hq => ?_, fun hq => ?_, fun hq => ?_, fun hq => ?_,
    fun he => ?_, fun he => ?_⟩
  · simp only [calculate_overview_metrics]
    rw [if_neg (by rw [hq]; exact lt_irrefl 0)]
    norm_num [round1]
  · simp only [calculate_overview_metrics]
    rw [if_pos hq]
  · rw [bdRow_win_rate, if_neg (by rw [hq]; exact lt_irrefl 0)]
  · rw [bdRow_win_rate, if_pos hq, bdRow_winners]
  · simp [calculate_monthly_stats, he]
  · simp only [calculate_monthly_stats, he, Bool.false_eq_true, if_false]
    rw [if_pos (aggregate_ne_nil rows he)]

theorem colStr_cW3_funnel : colStr cW3 "funnel_stage" = "BOF" := by decide

/-- Evaluation of the one-group breakdown used by the C3 witness. -/
theorem breakdown_cW3_eval :
    calculate_breakdown [cW3] "funnel_stage" = [bdW3] := by
  simp only [calculate_breakdown, breakdownKeys, List.map, colStr_cW3_funnel,
    List.dedup_nil, List.dedup_cons_of_not_mem, List.insertionSort,
    List.orderedInsert, bdW3]
  norm_num [dfColumns]

/-- C3 witness: the amended statement applied to a concrete one-creative
frame — the monthly win rate is winners over all unique creatives. -/
theorem C3_win_rate_denominators_witness :
    (calculate_monthly_stats [rowA3] 1000 2).win_rate
      = ((calculate_monthly_stats [rowA3] 1000 2).winners : ℚ)
          / ((calculate_monthly_stats [rowA3] 1000 2).unique_creatives : ℚ)
          * 100 :=
  (C3_win_rate_denominators [cW3] [rowA3] "funnel_stage" bdW3 1000 2
    (by rw [breakdown_cW3_eval]; exact List.mem_singleton.mpr rfl)).2.2.2.2.2 rfl

/- ### C6 -/

def cA6 : CRow := ⟨mkRow "A" 100 500 5 "OUTCOME_SALES" "VIDEO", true, true⟩

def cB6 : CRow := ⟨mkRow "B" 10000 15000 (3/2) "OUTCOME_SALES" "VIDEO", true, false⟩

theorem colStr_cA6_funnel : colStr cA6 "funnel_stage" = "BOF" := by decide

theorem colStr_cB6_funnel : colStr cB6 "funnel_stage" = "BOF" := by decide

/-- Evaluation of the one-group breakdown over creatives A and B. -/
theorem breakdown_c6_eval :
    calculate_breakdown [cA6, cB6] "funnel_stage"
      = [bdRow [cA6, cB6] "funnel_stage" "BOF"] := by
  simp only [calculate_breakdown, breakdownKeys, List.map, colStr_cA6_funnel,
    colStr_cB6_funnel, List.dedup_cons_of_mem, List.dedup_cons_of_not_mem,
    List.dedup_nil, List.mem_singleton, List.mem_cons, List.insertionSort,
    List.orderedInsert]
  norm_num [dfColumns]

theorem bdRow_roas_eq (df : List CRow) (c k : String) :
    (bdRow df c k).roas
      = if 0 < ((df.filter fun r => colStr r c = k).map (·.row.spend)).sum
        then round2
          ((((df.filter fun r => colStr r c = k).map (·.row.purchase_value)).sum)
            / (((df.filter fun r => colStr r c = k).map (·.row.spend)).sum))
        else 0 := rfl

/-- The group ROAS of the A/B group evaluates to 1.53. -/
theorem bd6_roas : (bdRow [cA6, cB6] "funnel_stage" "BOF").roas = 153/100 := by
  have hf : (([cA6, cB6] : List CRow).filter
      fun r => colStr r "funnel_stage" = "BOF") = [cA6, cB6] := by
    simp [List.filter_cons, colStr_cA6_funnel, colStr_cB6_funnel]
  rw [bdRow_roas_eq, hf]
  norm_num [cA6, cB6, mkRow, round2, round_eq]

/-- C6 counterexample: for A(spend=100, value=500, roas=5) and
B(spend=10000, value=15000, roas=1.5) in one group, the code reports
roas = 1.53 — `round(15500/10100, 2)` — which is neither the exact
15500/10100 stated by the claim nor the per-row average 3.25. -/
theorem C6_counterexample :
    ((calculate_breakdown [cA6, cB6] "funnel_stage").map (·.roas)) = [153/100]
    ∧ (153/100 : ℚ) ≠ 15500/10100
    ∧ (153/100 : ℚ) ≠ (5 + 3/2) / 2 := by
  refine ⟨?_, by norm_num, by norm_num⟩
  rw [breakdown_c6_eval, List.map_singleton, bd6_roas]

/-- C6 amended: every reported group ROAS is recomputed from the group's
raw totals — breakdown groups report `round(sum(purchase_value) /
sum(spend), 2)` (0 when the group's spend is 0), the monthly blended ROAS
is the exact `sum(purchase_value)/sum(spend)` over the aggregated
creatives, and the overview blended ROAS is that ratio rounded to 2
decimals.  None of them averages per-row roas values. -/
theorem C6_blended_roas (df : List CRow) (g : String) (b : BreakdownRow)
    (rows : List Row) (ms mr : ℚ) (hb : b ∈ calculate_breakdown df g) :
    (0 < ((df.filter fun r => colStr r g = b.name).map (·.row.spend)).sum
        → b.roas = round2
            ((((df.filter fun r => colStr r g = b.name).map
                (·.row.purchase_value)).sum)
              / (((df.filter fun r => colStr r g = b.name).map
                (·.row.spend)).sum)))
    ∧ (¬ 0 < ((df.filter fun r => colStr r g = b.name).map (·.row.spend)).sum
        → b.roas = 0)
    ∧ (rows.isEmpty = false
        → 0 < ((aggregate_by_creative rows).map (·.spend)).sum
        → (calculate_monthly_stats rows ms mr).avg_roas
            = ((aggregate_by_creative rows).map (·.purchase_value)).sum
                / ((aggregate_by_creative rows).map (·.spend)).sum)
    ∧ (0 < (df.map (·.row.spend)).sum
        → (calculate_overview_metrics df).blended_roas
            = round2 ((df.map (·.row.purchase_value)).sum
                / (df.map (·.row.spend)).sum)) := by
  rw [calculate_breakdown] at hb
  by_cases hg : g ∈ dfColumns
  case neg => rw [if_neg hg] at hb; cases hb
  case pos =>
  rw [if_pos hg] at hb
  have hb2 := (List.perm_insertionSort bdLE _).mem_iff.mp hb
  rcases List.mem_map.mp hb2 with ⟨k, hk, rfl⟩
  rw [bdRow_name]
  refine ⟨fun hs => ?_, fun hs => ?_, fun he hts => ?_, fun hs => ?_⟩
  · rw [bdRow_roas_eq, if_pos hs]
  · rw [bdRow_roas_eq, if_neg hs]
  · simp only [calculate_monthly_stats, he, Bool.false_eq_true, if_false]
    rw [if_pos hts]
  · simp only [calculate_overview_metrics]
    rw [if_pos hs]

/-- C6 witness: the amended statement applied to the concrete A/B frame —
the overview blended ROAS is the rounded ratio of raw totals. -/
theorem C6_blended_roas_witness :
    (calculate_overview_metrics [cA6, cB6]).blended_roas
      = round2 ((([cA6, cB6] : List CRow).map (·.row.purchase_value)).sum
          / (([cA6, cB6] : List CRow).map (·.row.spend)).sum) :=
  (C6_blended_roas [cA6, cB6] "funnel_stage"
    (bdRow [cA6, cB6] "funnel_stage" "BOF") [rowA3] 1000 2
    (by rw [breakdown_c6_eval]; exact List.mem_singleton.mpr rfl)).2.2.2
    (by norm_num [cA6, cB6, mkRow])

/- ### C7 -/

def rowC7 : Row := mkRow "Small" 50 250 5 "OUTCOME_SALES" "VIDEO"

/-- C7 counterexample: omitting both thresholds does NOT leave the result
threshold-free — the row with spend=50, roas=5 is classified exactly as
with the config defaults min_spend=100, min_roas=2 (unqualified), and
differently from zero thresholds, so a component default was silently
substituted. -/
theorem C7_counterexample :
    apply_win_rules [rowC7] none none
      = apply_win_rules [rowC7] (some 2) (some 100)
    ∧ apply_win_rules [rowC7] none none
        ≠ apply_win_rules [rowC7] (some 0) (some 0) :=
  ⟨rfl, by decide⟩

/-- C7 amended: when the thresholds are omitted (`None`), `apply_win_rules`
silently substitutes the module defaults `config.WIN_RULES`
(min_roas=2.0, min_spend=100.0); only when both thresholds are passed
explicitly does the classification depend solely on the passed values. -/
theorem C7_default_thresholds (df : List Row) (ms mr : ℚ) :
    apply_win_rules df none none
      = apply_win_rules df (some WIN_RULES_min_roas) (some WIN_RULES_min_spend)
    ∧ ∀ c ∈ apply_win_rules df (some mr) (some ms),
        c.is_qualified = decide (c.row.spend ≥ ms)
        ∧ c.is_winner
            = (decide (c.row.spend ≥ ms) && decide (c.row.roas ≥ mr)) := by
  refine ⟨rfl, ?_⟩
  intro c hc
  simp only [apply_win_rules] at hc
  rcases List.mem_map.mp hc with ⟨r, _, rfl⟩
  exact ⟨rfl, rfl⟩

/-- C7 witness: the amended statement at a concrete one-row frame. -/
theorem C7_default_thresholds_witness :
    apply_win_rules [rowC7] none none
      = apply_win_rules [rowC7] (some WIN_RULES_min_roas)
          (some WIN_RULES_min_spend) :=
  (C7_default_thresholds [rowC7] 100 2).1

/- ### C8 -/

def cX8 : CRow := ⟨mkRow "X" 1000 0 0 "OUTCOME_SALES" "VIDEO", true, false⟩

def cY8 : CRow := ⟨mkRow "Y" 10 100 10 "OUTCOME_AWARENESS" "VIDEO", true, true⟩

theorem colStr_cX8_funnel : colStr cX8 "funnel_stage" = "BOF" := by decide

theorem colStr_cY8_funnel : colStr cY8 "funnel_stage" = "TOF" := by decide

theorem bdRow_spend (df : List CRow) (c k : String) :
    (bdRow df c k).spend
      = ((df.filter fun r => colStr r c = k).map (·.row.spend)).sum := rfl

theorem bd8_BOF_wr : (bdRow [cX8, cY8] "funnel_stage" "BOF").win_rate = 0 := by
  rw [bdRow_win_rate]
  have hf : (([cX8, cY8] : List CRow).filter
      fun r => colStr r "funnel_stage" = "BOF") = [cX8] := by
    simp [List.filter_cons, colStr_cX8_funnel, colStr_cY8_funnel]
  rw [hf]
  norm_num [cX8, List.filter_cons, round1]

theorem bd8_TOF_wr : (bdRow [cX8, cY8] "funnel_stage" "TOF").win_rate = 100 := by
  rw [bdRow_win_rate]
  have hf : (([cX8, cY8] : List CRow).filter
      fun r => colStr r "funnel_stage" = "TOF") = [cY8] := by
    simp [List.filter_cons, colStr_cX8_funnel, colStr_cY8_funnel]
  rw [hf]
  norm_num [cY8, List.filter_cons, round1, round_eq]

/-- Evaluation of the two-group breakdown: the all-winner TOF group (win
rate 100) is sorted before the no-winner BOF group (win rate 0). -/
theorem breakdown_c8_eval :
    calculate_breakdown [cX8, cY8] "funnel_stage"
      = [bdRow [cX8, cY8] "funnel_stage" "TOF",
         bdRow [cX8, cY8] "funnel_stage" "BOF"] := by
  simp only [calculate_breakdown, breakdownKeys, List.map, colStr_cX8_funnel,
    colStr_cY8_funnel, List.dedup_cons_of_not_mem, List.dedup_nil,
    List.mem_singleton, List.insertionSort, List.orderedInsert,
    show strLE "BOF" "TOF" from by decide, if_true, bdLE, bd8_BOF_wr,
    bd8_TOF_wr]
  norm_num [dfColumns]

theorem bd8_TOF_spend : (bdRow [cX8, cY8] "funnel_stage" "TOF").spend = 10 := by
  have hf : (([cX8, cY8] : List CRow).filter
      fun r => colStr r "funnel_stage" = "TOF") = [cY8] := by
    simp [List.filter_cons, colStr_cX8_funnel, colStr_cY8_funnel]
  rw [bdRow_spend, hf]
  norm_num [cY8, mkRow]

theorem bd8_BOF_spend : (bdRow [cX8, cY8] "funnel_stage" "BOF").spend = 1000 := by
  have hf : (([cX8, cY8] : List CRow).filter
      fun r => colStr r "funnel_stage" = "BOF") = [cX8] := by
    simp [List.filter_cons, colStr_cX8_funnel, colStr_cY8_funnel]
  rw [bdRow_spend, hf]
  norm_num [cX8, mkRow]

/-- C8 counterexample: the breakdown of a high-spend loser group and a
low-spend winner group comes out spend-ASCENDING ([10, 1000]) — the code
sorts by win rate descending, not by spend descending, and has no caller
sort parameter. -/
theorem C8_counterexample :
    ((calculate_breakdown [cX8, cY8] "funnel_stage").map (·.spend)) = [10, 1000]
    ∧ ¬ List.Sorted (fun a b : BreakdownRow => b.spend ≤ a.spend)
        (calculate_breakdown [cX8, cY8] "funnel_stage") := by
  constructor
  · rw [breakdown_c8_eval]
    simp [bd8_TOF_spend, bd8_BOF_spend]
  · rw [breakdown_c8_eval]
    intro hs
    have := List.rel_of_sorted_cons hs _ (List.mem_singleton.mpr rfl)
    rw [bd8_TOF_spend, bd8_BOF_spend] at this
    exact absurd this (by norm_num)

/-- C8 amended: the breakdown output is always sorted by win rate in
descending order (`sort_values("win_rate", ascending=False)`); there is no
caller-selectable sort and no spend-descending default. -/
theorem C8_sorted_by_win_rate (df : List CRow) (g : String) :
    List.Sorted (fun a b : BreakdownRow => b.win_rate ≤ a.win_rate)
      (calculate_breakdown df g) := by
  rw [calculate_breakdown]
  split
  · exact List.sorted_insertionSort bdLE _
  · exact List.sorted_nil

/- ### C9 -/

/-- C9 counterexample: an unknown grouping dimension over a NONEMPTY frame
returns the silent empty result, not an error. -/
theorem C9_counterexample :
    calculate_breakdown [cX8] "zzz_not_a_column" = []
    ∧ (([cX8] : List CRow) ≠ []) := by
  refine ⟨?_, by simp⟩
  rw [calculate_breakdown, if_neg (by decide)]

/-- C9 amended: `calculate_breakdown` with a grouping dimension that is
not a column of the frame returns an empty frame (`pd.DataFrame()`) — it
degrades silently and never raises. -/
theorem C9_invalid_dimension_empty (df : List CRow) (g : String)
    (h : g ∉ dfColumns) : calculate_breakdown df g = [] := by
  rw [calculate_breakdown, if_neg h]

/-- C9 witness: the amended statement at a concrete invalid dimension. -/
theorem C9_invalid_dimension_empty_witness :
    calculate_breakdown [cX8] "not_a_column" = [] :=
  C9_invalid_dimension_empty [cX8] "not_a_column" (by decide)

/- ### C10 -/

/-- C10 counterexample: an unmapped non-empty creative_type ("GIF") passes
through `get_format_name` UNCHANGED — it is not sent to an
"Unknown"/"Other" bucket. -/
theorem C10_counterexample :
    FORMAT_MAPPING.lookup "GIF" = none
    ∧ get_format_name "GIF" = "GIF"
    ∧ "GIF" ≠ "Unknown" ∧ "GIF" ≠ "Other" :=
  ⟨by decide, by decide, by decide, by decide⟩

/-- C10 amended: an objective absent from the funnel table maps to
"Unknown", and a creative_type absent from the format mapping is kept
verbatim when non-empty — only an empty/absent creative_type maps to
"Unknown".  No record is dropped and nothing raises. -/
theorem C10_unmapped_values (o ct : String)
    (ho : OBJECTIVE_TO_FUNNEL.lookup o = none)
    (hct : FORMAT_MAPPING.lookup ct = none) :
    get_funnel_stage o = "Unknown"
    ∧ (ct ≠ "" → get_format_name ct = ct)
    ∧ (ct = "" → get_format_name ct = "Unknown") := by
  refine ⟨?_, fun h => ?_, fun h => ?_⟩
  · rw [get_funnel_stage, ho]; rfl
  · rw [get_format_name, hct, Option.getD_none, if_neg h]
  · rw [get_format_name, hct, Option.getD_none, if_pos h]

/-- C10 witness: the amended statement at concrete unmapped values. -/
theorem C10_unmapped_values_witness :
    get_funnel_stage "OUTCOME_BOGUS" = "Unknown"
    ∧ get_format_name "GIF2" = "GIF2"
    ∧ get_format_name "" = "Unknown" :=
  ⟨(C10_unmapped_values "OUTCOME_BOGUS" "GIF2" (by decide) (by decide)).1,
   (C10_unmapped_values "OUTCOME_BOGUS" "GIF2" (by decide) (by decide)).2.1
     (by decide),
   (C10_unmapped_values "OUTCOME_BOGUS" "" (by decide) (by decide)).2.2 rfl⟩
